import Mathlib

/-!
Shallow embedding of the tabbed interactive-form component of
`src/pi-agent/extensions/interactive-form/form-component.ts` (class
`InteractiveForm`), together with the data types it consumes from
`src/pi-agent/extensions/rich-review/index.ts` (`TabConfig`,
`TabResponse`, `FormResult`).

Modelling conventions:
* JavaScript `Record<string, T>` objects are association lists
  (`RecordMap T`) with first-match lookup; a missing key reads as `none`
  (JS `undefined`).
* Property access on a possibly-`undefined` record entry that JS would
  answer with a `TypeError` is modelled by an `Option` failure (`none`)
  of the whole step; reads that the source guards with `?.` / `?? 0` /
  truthiness checks are modelled with `Option.getD`.
* The option cursor is an `Int` because the source computes
  `Math.min(optionCount - 1, cursor + 1)`, which is `-1` when a tab has
  no selectable slot.
* The completion callback `done` and `tui.requestRender()` are modelled
  as emitted events (`FormEvent`), so that callback-invocation counts
  are observable.
* The external collaborators (the pi-tui `Input` component's buffer, the
  theme's styling callbacks, `truncateToWidth`) are abstracted as data
  the component cannot inspect: arbitrary functions in `RenderEnv`, and
  a plain text buffer for `Input`.
-/

/-- `OptionSpec`: one selectable option of a tab (`TabConfig.options`
element in `rich-review/index.ts`). -/
structure OptionSpec where
  value : String
  label : String
  description : Option String
deriving DecidableEq, Repr

/-- The `selectionType` string union `"single" | "multiple"`. -/
inductive SelectionType where
  | single
  | multiple
deriving DecidableEq, Repr

/-- `TabConfig` from `rich-review/index.ts`. -/
structure TabConfig where
  id : String
  label : String
  question : String
  options : List OptionSpec
  selectionType : SelectionType
  allowCustom : Bool
deriving DecidableEq, Repr

/-- `TabResponse` from `rich-review/index.ts`: `selected: string[]` plus
optional `customText` (JS `undefined` is `none`). -/
structure TabResponse where
  selected : List String
  customText : Option String
deriving DecidableEq, Repr

/-- A JS `Record<string, α>` as an association list with first-match
lookup. -/
abbrev RecordMap (α : Type) := List (String × α)

/-- Read a key; a missing key is JS `undefined`. -/
def getKey {α : Type} : RecordMap α → String → Option α
  | [], _ => none
  | (k', v') :: rest, k => if k' = k then some v' else getKey rest k

/-- Write a key: replace the first binding in place, or append a new
binding (JS property assignment). -/
def setKey {α : Type} : RecordMap α → String → α → RecordMap α
  | [], k, v => [(k, v)]
  | (k', v') :: rest, k, v =>
      if k' = k then (k, v) :: rest else (k', v') :: setKey rest k v

/-- The mutable state of an `InteractiveForm` instance: the private
fields of the class (the `Input` components are modelled by their text
buffers, see `inputBufferStep`). -/
structure FormState where
  currentTabIndex : Nat
  responses : RecordMap TabResponse
  optionCursor : RecordMap Int
  customInputMode : RecordMap Bool
  customInputs : RecordMap String
  cachedWidth : Option Nat
  cachedLines : Option (List String)
deriving DecidableEq, Repr

/-- Logical input tokens: the key patterns `handleInput` distinguishes
via `matchesKey`, plus `char c` for any other single-character chunk
(printable characters, in particular the digit quick-select keys). -/
inductive InputData where
  | escape
  | enter
  | tab
  | shiftTab
  | left
  | right
  | up
  | down
  | space
  | char (c : Char)
deriving DecidableEq, Repr

/-- Observable effects of one `handleInput` call or abort firing:
`done r` is an invocation of the completion callback (`none` models the
JS `null` cancellation argument), `requestRender` is
`tui.requestRender()`. -/
inductive FormEvent where
  | done (result : Option (RecordMap TabResponse))
  | requestRender
deriving DecidableEq, Repr

/-- `invalidate()` (lines 426-429): drop the render cache. -/
def invalidateState (s : FormState) : FormState :=
  { s with cachedWidth := none, cachedLines := none }

/-- Modelled from the spec: the per-tab transient text-input buffer of
the external pi-tui `Input` component (not part of this repository).
Keys other than printable characters are absorbed without changing the
buffered text; a printable character is appended. -/
def inputBufferStep (buf : String) (data : InputData) : String :=
  match data with
  | .char c => buf.push c
  | _ => buf

/-- JS `String.prototype.trim()`: drop whitespace from both ends. -/
def jsTrim (s : String) : String :=
  ⟨((s.data.dropWhile Char.isWhitespace).reverse.dropWhile Char.isWhitespace).reverse⟩

/-- `parseInt(data, 10)` restricted to a single-character chunk: a
decimal digit parses to its value, anything else is `NaN` (`none`). -/
def charDigit? (c : Char) : Option Nat :=
  if c.isDigit then some (c.toNat - ('0').toNat) else none

/-- `currentTab.options.length + (currentTab.allowCustom ? 1 : 0)`
(line 159). -/
def optionCountOf (tab : TabConfig) : Nat :=
  tab.options.length + (if tab.allowCustom then 1 else 0)

/-- `list[i]` for an `Int` index, as JS array indexing: negative or
out-of-range indices read `undefined`. -/
def getAtInt {α : Type} (l : List α) (i : Int) : Option α :=
  if i < 0 then none else l.get? i.toNat

/-- The selection effect shared by the Enter/Space branch (lines
188-206) and the digit quick-select branch (lines 223-238): single
replaces the selected set, multiple toggles membership (`indexOf` +
`splice` removes the first occurrence, `push` appends); both assign
`customText = undefined`. -/
def applySelection (ty : SelectionType) (r : TabResponse) (opt : OptionSpec) :
    TabResponse :=
  match ty with
  | .single => { selected := [opt.value], customText := none }
  | .multiple =>
      if r.selected.contains opt.value then
        { selected := r.selected.erase opt.value, customText := none }
      else
        { selected := r.selected ++ [opt.value], customText := none }

/-- `handleInput(data)` of `InteractiveForm`, translated branch by
branch from `form-component.ts` lines 91-245. The result is `none`
exactly when the source would throw a `TypeError` by dereferencing a
missing `customInputs[tabId]` / `responses[tabId]` entry; otherwise it
is the updated state plus the emitted events. Note the guard
`if (!currentTab) return;` at the top: when `currentTabIndex` equals
`tabs.length` (the virtual submit tab) the lookup `tabs[currentTabIndex]`
is `undefined` and every input is dropped, so the submit branch below it
is unreachable. -/
def handleInput (tabs : List TabConfig) (s : FormState) (data : InputData) :
    Option (FormState × List FormEvent) :=
  match tabs.get? s.currentTabIndex with
  | none => some (s, [])
  | some currentTab =>
    let tabId := currentTab.id
    let isCustomMode := (getKey s.customInputMode tabId).getD false
    let isSubmitTab := s.currentTabIndex == tabs.length
    if isCustomMode && !isSubmitTab then
      -- custom input mode (lines 100-127)
      match data with
      | .escape =>
          some (invalidateState
            { s with customInputMode := setKey s.customInputMode tabId false },
            [.requestRender])
      | .enter =>
          match getKey s.customInputs tabId with
          | none => none
          | some buf =>
              let inputText := jsTrim buf
              let s1 :=
                if inputText ≠ "" then
                  { s with responses := (setKey s.responses tabId
                      { selected := [], customText := some inputText }) }
                else s
              some (invalidateState
                { s1 with customInputMode := setKey s1.customInputMode tabId false },
                [.requestRender])
      | d =>
          match getKey s.customInputs tabId with
          | none => none
          | some buf =>
              some (invalidateState
                { s with customInputs := (setKey s.customInputs tabId
                    (inputBufferStep buf d)) },
                [.requestRender])
    else
      -- global navigation (lines 129-147)
      match data with
      | .escape => some (s, [.done none])
      | .tab =>
          some (invalidateState
            { s with currentTabIndex := min (s.currentTabIndex + 1) tabs.length },
            [.requestRender])
      | .right =>
          some (invalidateState
            { s with currentTabIndex := min (s.currentTabIndex + 1) tabs.length },
            [.requestRender])
      | .shiftTab =>
          some (invalidateState
            { s with currentTabIndex := s.currentTabIndex - 1 },
            [.requestRender])
      | .left =>
          some (invalidateState
            { s with currentTabIndex := s.currentTabIndex - 1 },
            [.requestRender])
      | d2 =>
        if isSubmitTab then
          -- submit tab handling (lines 149-156); dead given the guard above
          match d2 with
          | .enter => some (s, [.done (some s.responses)])
          | _ => some (s, [])
        else
          let optionCount := optionCountOf currentTab
          let cursor : Int := (getKey s.optionCursor tabId).getD 0
          match d2 with
          | .up =>
              some (invalidateState
                { s with optionCursor := (setKey s.optionCursor tabId
                    (max 0 (cursor - 1))) },
                [.requestRender])
          | .down =>
              some (invalidateState
                { s with optionCursor := (setKey s.optionCursor tabId
                    (min ((optionCount : Int) - 1) (cursor + 1))) },
                [.requestRender])
          | .enter | .space =>
              -- selection (lines 176-211)
              let isCustomOption :=
                currentTab.allowCustom && cursor == (currentTab.options.length : Int)
              if isCustomOption then
                match getKey s.customInputs tabId with
                | none => none  -- `.focused =` assignment on undefined
                | some _ =>
                    some (invalidateState
                      { s with customInputMode := setKey s.customInputMode tabId true },
                      [.requestRender])
              else
                match getAtInt currentTab.options cursor with
                | none => some (s, [])
                | some opt =>
                    match getKey s.responses tabId with
                    | none => none
                    | some response =>
                        some (invalidateState
                          { s with responses := (setKey s.responses tabId
                              (applySelection currentTab.selectionType response opt)) },
                          [.requestRender])
          | .char c =>
              -- number keys for quick selection (lines 213-244)
              match charDigit? c with
              | none => some (s, [])
              | some numKey =>
                if 1 ≤ numKey ∧ numKey ≤ optionCount then
                  let optionIndex := numKey - 1
                  let isCustomOption :=
                    currentTab.allowCustom && optionIndex == currentTab.options.length
                  if isCustomOption then
                    match getKey s.customInputs tabId with
                    | none => none  -- `.focused =` assignment on undefined
                    | some _ =>
                        some (invalidateState
                          { s with
                              customInputMode := setKey s.customInputMode tabId true,
                              optionCursor := (setKey s.optionCursor tabId
                                (optionIndex : Int)) },
                          [.requestRender])
                  else
                    match currentTab.options.get? optionIndex with
                    | none =>
                        some (invalidateState
                          { s with optionCursor := (setKey s.optionCursor tabId
                              (optionIndex : Int)) },
                          [.requestRender])
                    | some opt =>
                        match getKey s.responses tabId with
                        | none => none
                        | some response =>
                            some (invalidateState
                              { s with
                                  responses := (setKey s.responses tabId
                                    (applySelection currentTab.selectionType response opt)),
                                  optionCursor := (setKey s.optionCursor tabId
                                    (optionIndex : Int)) },
                              [.requestRender])
                else
                  some (s, [])
          | _ => some (s, [])

/-- One iteration of the constructor loop (lines 76-81): the tab gets an
empty response, cursor 0, custom mode off, and a fresh empty `Input`
buffer. -/
def initTabStep (s : FormState) (tab : TabConfig) : FormState :=
  { s with
      responses := (setKey s.responses tab.id
        { selected := [], customText := none }),
      optionCursor := setKey s.optionCursor tab.id 0,
      customInputMode := setKey s.customInputMode tab.id false,
      customInputs := setKey s.customInputs tab.id "" }

/-- Constructor state initialisation (lines 75-81). -/
def initState (tabs : List TabConfig) : FormState :=
  tabs.foldl initTabStep
    { currentTabIndex := 0, responses := [], optionCursor := [],
      customInputMode := [], customInputs := [],
      cachedWidth := none, cachedLines := none }

/-- One externally observable stimulus: an input chunk delivered to
`handleInput`, or the abort signal firing (whose listener, lines 84-88,
invokes `done(null)` without touching any state). -/
inductive FormAction where
  | input (data : InputData)
  | abort
deriving DecidableEq, Repr

/-- Deliver one action to the form. -/
def stepAction (tabs : List TabConfig) (s : FormState) :
    FormAction → Option (FormState × List FormEvent)
  | .input d => handleInput tabs s d
  | .abort => some (s, [.done none])

/-- Run a whole interaction from the freshly constructed form,
accumulating every emitted event. -/
def runForm (tabs : List TabConfig) (acts : List FormAction) :
    Option (FormState × List FormEvent) :=
  acts.foldlM
    (fun (p : FormState × List FormEvent) a => do
      let (s', evs) ← stepAction tabs p.1 a
      pure (s', p.2 ++ evs))
    (initState tabs, [])

/-- Number of completion-callback invocations in an event trace. -/
def doneCount (evs : List FormEvent) : Nat :=
  evs.countP (fun e => match e with | .done _ => true | _ => false)

/-- The events of a step, reading a thrown step as no events. -/
def eventsOf (r : Option (FormState × List FormEvent)) : List FormEvent :=
  (r.map Prod.snd).getD []

/-- States reachable from the freshly constructed form by any sequence
of delivered inputs (the abort listener leaves the state unchanged, so
it does not extend the reachable set). -/
inductive Reachable (tabs : List TabConfig) : FormState → Prop where
  | init : Reachable tabs (initState tabs)
  | step {s s' : FormState} {d : InputData} {evs : List FormEvent} :
      Reachable tabs s → handleInput tabs s d = some (s', evs) → Reachable tabs s'

/-- The constructor's per-tab entries for `responses` and `customInputs`
are present — exactly what `handleInput` dereferences without a guard. -/
def MapsInitialized (tabs : List TabConfig) (s : FormState) : Prop :=
  ∀ tab ∈ tabs, (getKey s.responses tab.id).isSome = true ∧
    (getKey s.customInputs tab.id).isSome = true

/-- Mutual exclusivity of `customText` and a non-empty `selected` set. -/
def ResponsesExclusive (s : FormState) : Prop :=
  ∀ id r, getKey s.responses id = some r → r.customText = none ∨ r.selected = []

/-- Every stored cursor is within its tab's slot range. -/
def CursorOk (tabs : List TabConfig) (s : FormState) : Prop :=
  ∀ tab ∈ tabs, ∀ c, getKey s.optionCursor tab.id = some c →
    0 ≤ c ∧ c < (optionCountOf tab : Int)

/-! ### Concrete forms and interactions used by the scenario claims -/

/-- The two-tab form of the scenario in §8 of the spec: "Color"
(single, red/blue, no custom) and "Notes" (multiple, a/b,
allowCustom). -/
def colorTab : TabConfig :=
  { id := "Color", label := "Color", question := "Pick a color",
    options := [{ value := "red", label := "red", description := none },
                { value := "blue", label := "blue", description := none }],
    selectionType := .single, allowCustom := false }

def notesTab : TabConfig :=
  { id := "Notes", label := "Notes", question := "Notes",
    options := [{ value := "a", label := "a", description := none },
                { value := "b", label := "b", description := none }],
    selectionType := .multiple, allowCustom := true }

def twoTabForm : List TabConfig := [colorTab, notesTab]

/-- The §8 scenario keystrokes: select "red" on tab 1, Tab, select "a"
and "b" on tab 2, Tab (enters Summary), Enter. -/
def c1Actions : List FormAction :=
  [.input .enter, .input .tab, .input .enter, .input .down, .input .enter,
   .input .tab, .input .enter]

/-- A tab with no options and no custom slot (`optionCount = 0`). -/
def emptyTab : TabConfig :=
  { id := "empty", label := "E", question := "?", options := [],
    selectionType := .single, allowCustom := false }

/-- A one-option tab with a custom-entry slot. -/
def customTab : TabConfig :=
  { id := "t", label := "T", question := "?",
    options := [{ value := "a", label := "a", description := none }],
    selectionType := .multiple, allowCustom := true }

/-- Commit "hi" as custom text, re-enter custom input, type "x", abandon
with Escape, re-enter custom input. -/
def c4Actions : List FormAction :=
  [.input .down, .input .enter, .input (.char 'h'), .input (.char 'i'),
   .input .enter, .input .enter, .input (.char 'x'), .input .escape, .input .enter]

/-- A custom-mode state over `customTab` with a committed selection and
an all-whitespace buffer. -/
def c10State : FormState :=
  { currentTabIndex := 0,
    responses := [("t", { selected := ["a"], customText := none })],
    optionCursor := [("t", 1)],
    customInputMode := [("t", true)],
    customInputs := [("t", "  ")],
    cachedWidth := none, cachedLines := none }

/-- A browsing state over `customTab` with the cursor on the
custom-entry slot and "old" in the buffer. -/
def c4State : FormState :=
  { currentTabIndex := 0,
    responses := [("t", { selected := [], customText := none })],
    optionCursor := [("t", 1)],
    customInputMode := [("t", false)],
    customInputs := [("t", "old")],
    cachedWidth := none, cachedLines := none }

/-! ### Renderer model

The theme (`Theme` from pi-coding-agent) and the pi-tui utilities
(`truncateToWidth`, the `Input` component's `render`) are external
collaborators this repository does not define; they are abstracted as
arbitrary functions in `RenderEnv`, and `render` is translated from
`form-component.ts` lines 247-424 over that environment. -/

/-- The styling callbacks of the host theme. -/
structure ThemeModel where
  fg : String → String → String
  bg : String → String → String
  bold : String → String

/-- External rendering collaborators: the theme, pi-tui
`truncateToWidth`, and the `Input` component's `render` as a function of
its buffered text. -/
structure RenderEnv where
  theme : ThemeModel
  truncateToWidth : String → Nat → String
  inputRender : String → Nat → List String

/-- `"─".repeat(width)`. -/
def repeatStr (s : String) (n : Nat) : String :=
  String.join (List.replicate n s)

/-- `hasResponse(tabId)` (lines 421-424): a truthy `customText` or a
non-empty selected set. -/
def hasResponse (s : FormState) (tabId : String) : Bool :=
  match getKey s.responses tabId with
  | none => false
  | some r => decide (0 < r.selected.length) || decide (r.customText.getD "" ≠ "")

/-- `renderTabHeader(width)` (lines 378-419). -/
def renderTabHeader (env : RenderEnv) (tabs : List TabConfig) (s : FormState)
    (_width : Nat) : String :=
  let t := env.theme
  let back := if 0 < s.currentTabIndex then t.fg "muted" "← " else "  "
  let allTabs := tabs.map (fun tab => tab.label) ++ ["Submit"]
  let pieces := allTabs.enum.map (fun pair =>
    let i := pair.1
    let label := pair.2
    let isActive := i == s.currentTabIndex
    let hasResp := decide (i < tabs.length) &&
      (match tabs.get? i with
       | some tab => hasResponse s tab.id
       | none => false)
    let tabStr :=
      if isActive then t.bg "selectedBg" (t.fg "accent" (" " ++ label ++ " "))
      else if i == tabs.length then " " ++ t.fg "success" "✓" ++ " " ++ label ++ " "
      else if hasResp then
        " " ++ t.fg "success" "✓" ++ " " ++ t.fg "muted" label ++ " "
      else " " ++ t.fg "dim" "○" ++ " " ++ t.fg "muted" label ++ " "
    if i < allTabs.length - 1 then tabStr ++ t.fg "border" "│" else tabStr)
  let fwd := if s.currentTabIndex < tabs.length then t.fg "muted" " →" else "  "
  back ++ String.join pieces ++ fwd

/-- The summary answer string of one tab (lines 274-287): truthy
`customText` verbatim, else comma-joined labels of the selected values
(falling back to the raw value when no option matches), else the
placeholder. -/
def summaryAnswer (tab : TabConfig) (r? : Option TabResponse) : String :=
  match r? with
  | none => "(no selection)"
  | some r =>
      if r.customText.getD "" ≠ "" then r.customText.getD ""
      else if 0 < r.selected.length then
        String.intercalate ", " (r.selected.map (fun val =>
          match tab.options.find? (fun o => o.value == val) with
          | some o => o.label
          | none => val))
      else "(no selection)"

/-- One option row plus its optional description row (lines 307-328). -/
def renderOptionLine (env : RenderEnv) (tab : TabConfig) (r? : Option TabResponse)
    (cursor : Int) (isCustomMode : Bool) (width : Nat) (idx : Nat)
    (opt : OptionSpec) : List String :=
  let t := env.theme
  let isSelected := (r?.map (fun r => r.selected.contains opt.value)).getD false
  let isCursor := ((idx : Int) == cursor) && !isCustomMode
  let pfx := if isCursor then t.fg "accent" "› " else "  "
  let checkbox :=
    match tab.selectionType with
    | .single => if isSelected then t.fg "success" "(•)" else t.fg "muted" "( )"
    | .multiple => if isSelected then t.fg "success" "[✓]" else t.fg "muted" "[ ]"
  let num := t.fg "dim" (toString (idx + 1) ++ ".")
  let label := if isCursor then t.fg "accent" opt.label else opt.label
  let line := env.truncateToWidth (pfx ++ num ++ " " ++ checkbox ++ " " ++ label) width
  if opt.description.getD "" ≠ "" then
    [line,
     env.truncateToWidth ("       " ++ t.fg "muted" (opt.description.getD "")) width]
  else
    [line]

/-- The custom-entry slot rows (lines 330-360): the slot line, then the
inline input field with its hint when in custom mode, or the committed
text when present. -/
def renderCustomSlot (env : RenderEnv) (tab : TabConfig) (s : FormState)
    (r? : Option TabResponse) (cursor : Int) (isCustomMode : Bool)
    (width : Nat) : List String :=
  if tab.allowCustom then
    let t := env.theme
    let customIdx := tab.options.length
    let isCursor := ((customIdx : Int) == cursor) && !isCustomMode
    let hasCustom := (r?.map (fun r => r.customText.getD "")).getD "" ≠ ""
    let pfx := if isCursor then t.fg "accent" "› " else "  "
    let checkbox :=
      match tab.selectionType with
      | .single => if hasCustom then t.fg "success" "(•)" else t.fg "muted" "( )"
      | .multiple => if hasCustom then t.fg "success" "[✓]" else t.fg "muted" "[ ]"
    let num := t.fg "dim" (toString (customIdx + 1) ++ ".")
    let label := if isCursor then t.fg "accent" "Type something" else "Type something"
    let slotLine :=
      env.truncateToWidth (pfx ++ num ++ " " ++ checkbox ++ " " ++ label) width
    if isCustomMode then
      [slotLine, ""]
      ++ (env.inputRender ((getKey s.customInputs tab.id).getD "") (width - 4)).map
           (fun line => "    " ++ line)
      ++ [env.truncateToWidth ("    " ++ t.fg "dim" "Enter to confirm • Esc to cancel")
            width]
    else if hasCustom then
      [slotLine,
       env.truncateToWidth ("       " ++ t.fg "muted"
         ("\"" ++ (r?.map (fun r => r.customText.getD "")).getD "" ++ "\"")) width]
    else
      [slotLine]
  else
    []

/-- The question view (lines 294-361). -/
def renderQuestion (env : RenderEnv) (s : FormState) (tab : TabConfig)
    (width : Nat) : List String :=
  let t := env.theme
  let r? := getKey s.responses tab.id
  let cursor := (getKey s.optionCursor tab.id).getD 0
  let isCustomMode := (getKey s.customInputMode tab.id).getD false
  ["", env.truncateToWidth ("  " ++ t.fg "accent" (t.bold tab.question)) width, ""]
  ++ (tab.options.enum.map (fun pair =>
        renderOptionLine env tab r? cursor isCustomMode width pair.1 pair.2)).flatten
  ++ renderCustomSlot env tab s r? cursor isCustomMode width

/-- The full frame (lines 252-371), cache handling excluded: borders,
tab header, summary or question view, padding, help line. -/
def renderLines (env : RenderEnv) (tabs : List TabConfig) (s : FormState)
    (width : Nat) : List String :=
  let t := env.theme
  let isSubmitTab := s.currentTabIndex == tabs.length
  let contentLines :=
    if isSubmitTab then
      ["", t.fg "accent" (t.bold "  Summary - Review your responses:"), ""]
      ++ tabs.map (fun tab =>
           env.truncateToWidth
             ("  " ++ t.fg "muted" (tab.label ++ ":") ++ " "
               ++ summaryAnswer tab (getKey s.responses tab.id)) width)
      ++ ["", t.fg "success" "  Press Enter to submit"]
    else
      match tabs.get? s.currentTabIndex with
      | none => []
      | some currentTab => renderQuestion env s currentTab width
  [t.fg "border" (repeatStr "─" width), renderTabHeader env tabs s width,
   t.fg "border" (repeatStr "─" width)]
  ++ contentLines
  ++ ["",
      t.fg "dim"
        "  ←→/Tab: navigate tabs • ↑↓: select option • Enter/Space: toggle • Esc: cancel",
      t.fg "border" (repeatStr "─" width)]

/-- `render(width)` (lines 247-250 and 373-376): answer from the cache
when `cachedLines` is present with the same width, else recompute and
overwrite the cache. The only state it writes is the cache. -/
def render (env : RenderEnv) (tabs : List TabConfig) (s : FormState)
    (width : Nat) : List String × FormState :=
  match s.cachedLines with
  | some lines =>
      if s.cachedWidth = some width then (lines, s)
      else
        let ls := renderLines env tabs s width
        (ls, { s with cachedWidth := some width, cachedLines := some ls })
  | none =>
      let ls := renderLines env tabs s width
      (ls, { s with cachedWidth := some width, cachedLines := some ls })

/-! ### Association-list lemmas -/

theorem getKey_setKey_self {α : Type} (m : RecordMap α) (k : String) (v : α) :
    getKey (setKey m k v) k = some v := by
  induction m with
  | nil => simp [setKey, getKey]
  | cons hd tl ih =>
      obtain ⟨k', v'⟩ := hd
      by_cases h : k' = k
      · simp [setKey, getKey, h]
      · simp [setKey, getKey, h, ih]

theorem getKey_setKey_ne {α : Type} (m : RecordMap α) {k k' : String} (v : α)
    (h : k ≠ k') : getKey (setKey m k v) k' = getKey m k' := by
  induction m with
  | nil => simp [setKey, getKey, h]
  | cons hd tl ih =>
      obtain ⟨k0, v0⟩ := hd
      by_cases h0 : k0 = k
      · subst h0
        simp [setKey, getKey, h]
      · simp [setKey, getKey, h0, ih]

theorem isSome_getKey_setKey {α : Type} (m : RecordMap α) (k k' : String) (v : α)
    (h : (getKey m k').isSome) : (getKey (setKey m k v) k').isSome := by
  by_cases hk : k = k'
  · subst hk
    simp [getKey_setKey_self]
  · rwa [getKey_setKey_ne m v hk]

theorem getKey_setKey_pred {α : Type} (p : α → Prop) {m : RecordMap α}
    {k : String} {v : α} (hm : ∀ id r, getKey m id = some r → p r) (hv : p v) :
    ∀ id r, getKey (setKey m k v) id = some r → p r := by
  intro id r hr
  by_cases hk : k = id
  · subst hk
    rw [getKey_setKey_self] at hr
    cases hr
    exact hv
  · rw [getKey_setKey_ne m v hk] at hr
    exact hm id r hr

/-- An index at which `get?` succeeds is not the length. -/
theorem index_ne_length {α : Type} {l : List α} {i : Nat} {a : α}
    (h : l.get? i = some a) : (i == l.length) = false := by
  have hlt : i < l.length := by
    by_contra hge
    rw [List.get?_eq_none.mpr (Nat.le_of_not_lt hge)] at h
    cases h
  simp [Nat.ne_of_lt hlt]

/-! ### Constructor-state lemmas -/

theorem initFold_isSome_mono (l : List TabConfig) (s0 : FormState) (id : String)
    (hr : (getKey s0.responses id).isSome = true)
    (hc : (getKey s0.customInputs id).isSome = true) :
    (getKey (l.foldl initTabStep s0).responses id).isSome = true ∧
    (getKey (l.foldl initTabStep s0).customInputs id).isSome = true := by
  induction l generalizing s0 with
  | nil => exact ⟨hr, hc⟩
  | cons hd tl ih =>
      exact ih (initTabStep s0 hd)
        (isSome_getKey_setKey _ _ _ _ hr) (isSome_getKey_setKey _ _ _ _ hc)

theorem mapsInitialized_init (tabs : List TabConfig) :
    MapsInitialized tabs (initState tabs) := by
  suffices h : ∀ s0 : FormState, ∀ tab ∈ tabs,
      (getKey (tabs.foldl initTabStep s0).responses tab.id).isSome = true ∧
      (getKey (tabs.foldl initTabStep s0).customInputs tab.id).isSome = true by
    exact fun tab hm => h _ tab hm
  induction tabs with
  | nil =>
      intro s0 tab hm
      cases hm
  | cons hd tl ih =>
      intro s0 tab hm
      rcases List.mem_cons.mp hm with rfl | hm2
      · exact initFold_isSome_mono tl (initTabStep s0 tab) tab.id
          (by simp [initTabStep, getKey_setKey_self])
          (by simp [initTabStep, getKey_setKey_self])
      · exact ih (initTabStep s0 _) tab hm2

theorem initFold_responses_pred (p : TabResponse → Prop)
    (hp : p { selected := [], customText := none })
    (l : List TabConfig) (s0 : FormState)
    (h0 : ∀ id r, getKey s0.responses id = some r → p r) :
    ∀ id r, getKey (l.foldl initTabStep s0).responses id = some r → p r := by
  induction l generalizing s0 with
  | nil => exact h0
  | cons hd tl ih =>
      exact ih (initTabStep s0 hd) (getKey_setKey_pred p h0 hp)

theorem responsesExclusive_init (tabs : List TabConfig) :
    ResponsesExclusive (initState tabs) :=
  initFold_responses_pred _ (Or.inl rfl) tabs _
    (fun id r hr => by simp [getKey] at hr)

theorem initFold_cursor_pred (p : Int → Prop) (hp : p 0)
    (l : List TabConfig) (s0 : FormState)
    (h0 : ∀ id c, getKey s0.optionCursor id = some c → p c) :
    ∀ id c, getKey (l.foldl initTabStep s0).optionCursor id = some c → p c := by
  induction l generalizing s0 with
  | nil => exact h0
  | cons hd tl ih =>
      exact ih (initTabStep s0 hd) (getKey_setKey_pred p h0 hp)

theorem initState_cursor_zero (tabs : List TabConfig) :
    ∀ id c, getKey (initState tabs).optionCursor id = some c → c = 0 :=
  initFold_cursor_pred (fun c => c = 0) rfl tabs _
    (fun id c hc => by simp [getKey] at hc)

/-! ### Step lemmas -/

theorem mapsInitialized_step (tabs : List TabConfig) {s s' : FormState}
    {d : InputData} {evs : List FormEvent}
    (hWF : MapsInitialized tabs s)
    (h : handleInput tabs s d = some (s', evs)) : MapsInitialized tabs s' := by
  rcases hget : tabs.get? s.currentTabIndex with _ | tab0
  · simp only [handleInput, hget, Option.some.injEq, Prod.mk.injEq] at h
    obtain ⟨h1, -⟩ := h
    subst h1
    exact hWF
  · simp only [handleInput, hget] at h
    repeat' split at h
    all_goals
      first
      | (simp only [Option.some.injEq, Prod.mk.injEq] at h
         obtain ⟨h1, -⟩ := h
         subst h1
         intro tab hm
         obtain ⟨hr, hc⟩ := hWF tab hm
         exact ⟨by first | exact hr | exact isSome_getKey_setKey _ _ _ _ hr,
                by first | exact hc | exact isSome_getKey_setKey _ _ _ _ hc⟩)
      | simp at h

theorem handleInput_isSome (tabs : List TabConfig) (s : FormState) (d : InputData)
    (hWF : MapsInitialized tabs s) : (handleInput tabs s d).isSome = true := by
  rcases hget : tabs.get? s.currentTabIndex with _ | tab0
  · simp only [handleInput, hget]
    simp
  · have hmem : tab0 ∈ tabs := List.get?_mem hget
    obtain ⟨hr, hc⟩ := hWF tab0 hmem
    obtain ⟨r0, hr0⟩ := Option.isSome_iff_exists.mp hr
    obtain ⟨b0, hb0⟩ := Option.isSome_iff_exists.mp hc
    simp only [handleInput, hget]
    repeat' split
    all_goals simp_all

theorem applySelection_customText (ty : SelectionType) (r : TabResponse)
    (opt : OptionSpec) : (applySelection ty r opt).customText = none := by
  cases ty
  · rfl
  · simp only [applySelection]
    split <;> rfl

theorem responsesExclusive_step (tabs : List TabConfig) {s s' : FormState}
    {d : InputData} {evs : List FormEvent}
    (hOk : ResponsesExclusive s)
    (h : handleInput tabs s d = some (s', evs)) : ResponsesExclusive s' := by
  rcases hget : tabs.get? s.currentTabIndex with _ | tab0
  · simp only [handleInput, hget, Option.some.injEq, Prod.mk.injEq] at h
    obtain ⟨h1, -⟩ := h
    subst h1
    exact hOk
  · simp only [handleInput, hget] at h
    repeat' split at h
    all_goals
      first
      | (simp only [Option.some.injEq, Prod.mk.injEq] at h
         obtain ⟨h1, -⟩ := h
         subst h1
         first
         | exact hOk
         | exact fun id r hr => hOk id r hr
         | exact getKey_setKey_pred _ hOk (Or.inr rfl)
         | exact getKey_setKey_pred _ hOk
             (Or.inl (applySelection_customText _ _ _)))
      | simp at h

theorem cursorOk_setKey (tabs : List TabConfig) {m : RecordMap Int}
    (hnd : (tabs.map TabConfig.id).Nodup)
    (hOk : ∀ tab ∈ tabs, ∀ c, getKey m tab.id = some c →
      0 ≤ c ∧ c < (optionCountOf tab : Int))
    (cur : TabConfig) (hmem : cur ∈ tabs) (w : Int)
    (hw0 : 0 ≤ w) (hw1 : w < (optionCountOf cur : Int)) :
    ∀ tab ∈ tabs, ∀ c, getKey (setKey m cur.id w) tab.id = some c →
      0 ≤ c ∧ c < (optionCountOf tab : Int) := by
  intro tab hm c hc
  by_cases hid : cur.id = tab.id
  · have heq : cur = tab := List.inj_on_of_nodup_map hnd hmem hm hid
    subst heq
    rw [getKey_setKey_self] at hc
    injection hc with hcw
    subst hcw
    exact ⟨hw0, hw1⟩
  · rw [getKey_setKey_ne m w hid] at hc
    exact hOk tab hm c hc

theorem cursorOk_step (tabs : List TabConfig) {s s' : FormState} {d : InputData}
    {evs : List FormEvent}
    (hnd : (tabs.map TabConfig.id).Nodup)
    (hcnt : ∀ tab ∈ tabs, 1 ≤ optionCountOf tab)
    (hOk : CursorOk tabs s)
    (h : handleInput tabs s d = some (s', evs)) : CursorOk tabs s' := by
  rcases hget : tabs.get? s.currentTabIndex with _ | tab0
  · simp only [handleInput, hget, Option.some.injEq, Prod.mk.injEq] at h
    obtain ⟨h1, -⟩ := h
    subst h1
    exact hOk
  · have hmem : tab0 ∈ tabs := List.get?_mem hget
    have hone : 1 ≤ optionCountOf tab0 := hcnt tab0 hmem
    have hcurb : (getKey s.optionCursor tab0.id).getD 0 = 0 ∨
        (0 ≤ (getKey s.optionCursor tab0.id).getD 0 ∧
         (getKey s.optionCursor tab0.id).getD 0 < (optionCountOf tab0 : Int)) := by
      rcases hgc : getKey s.optionCursor tab0.id with _ | c0
      · left
        simp
      · right
        simpa using hOk tab0 hmem c0 hgc
    simp only [handleInput, hget] at h
    repeat' split at h
    all_goals
      first
      | (simp only [Option.some.injEq, Prod.mk.injEq] at h
         obtain ⟨h1, -⟩ := h
         subst h1
         first
         | exact hOk
         | exact fun tab hm c hc => hOk tab hm c hc
         | exact cursorOk_setKey tabs hnd hOk tab0 hmem _ (by omega) (by omega))
      | simp at h

theorem reachable_mapsInitialized (tabs : List TabConfig) {s : FormState}
    (h : Reachable tabs s) : MapsInitialized tabs s := by
  induction h with
  | init => exact mapsInitialized_init tabs
  | step hr hstep ih => exact mapsInitialized_step tabs ih hstep

/-! ### Claim theorems -/

/-- Claim C1: running the §8 scenario (select red, Tab, select a,
select b, Tab, Enter) ends with `currentTabIndex = 2` (the Summary
pseudo-state) holding exactly the responses the claim expects, yet the
completion callback is never invoked: the guard `if (!currentTab)
return;` at the top of `handleInput` drops the final Enter because
`tabs[currentTabIndex]` is `undefined` on the virtual submit tab, so the
submit branch (lines 150-156) is unreachable dead code. -/
theorem c1_summary_enter_never_submits :
    (runForm twoTabForm c1Actions).map (fun p =>
      (doneCount p.2, p.1.currentTabIndex,
       getKey p.1.responses "Color", getKey p.1.responses "Notes")) =
    some (0, 2,
      some { selected := ["red"], customText := none },
      some { selected := ["a", "b"], customText := none }) := by rfl

/-- Claim C2, counterexample: the completion callback is NOT invoked at
most once per form instance: the component keeps no terminal flag, so
two Escape presses in the Browsing state invoke `done(null)` twice. -/
theorem c2_counterexample_double_escape :
    (runForm twoTabForm [.input .escape, .input .escape]).map
      (fun p => doneCount p.2) = some 2 := by rfl

/-- Claim C2, amended: a single delivered input token or abort firing
invokes the completion callback at most once; nothing marks the form
terminal, so later tokens or firings can invoke it again. -/
theorem c2_amended_step_invokes_done_at_most_once
    (tabs : List TabConfig) (s : FormState) (a : FormAction) :
    doneCount (eventsOf (stepAction tabs s a)) ≤ 1 := by
  rcases a with d | _
  · show doneCount (eventsOf (handleInput tabs s d)) ≤ 1
    rcases hr : handleInput tabs s d with _ | ⟨s', evs⟩
    · simp [eventsOf, doneCount]
    · simp only [handleInput] at hr
      repeat' split at hr
      all_goals
        first
        | (simp only [Option.some.injEq, Prod.mk.injEq] at hr
           obtain ⟨h1, h2⟩ := hr
           subst h2
           simp [eventsOf, doneCount])
        | simp at hr
  · simp [stepAction, eventsOf, doneCount]

/-- Claim C3: on a zero-tab form, `currentTabIndex = 0 = tabs.length`,
so `tabs[0]` is `undefined` and the top guard of `handleInput` drops
Enter: no completion event is emitted and the state is untouched,
instead of submitting the empty responses mapping. (The form does not
crash: the step is a normal no-op.) -/
theorem c3_zero_tabs_enter_is_ignored :
    runForm [] [.input .enter] = some (initState [], []) := by rfl

/-- Claim C4, counterexample: the text buffer is NOT pre-seeded from the
tab's committed `customText` when CustomInput is re-entered. After
committing "hi", typing "x", abandoning with Escape and re-entering,
the buffer reads "hix" (the abandoned edit survives) while the committed
`customText` is still "hi". -/
theorem c4_counterexample_buffer_not_reseeded :
    (runForm [customTab] c4Actions).map (fun p =>
      (getKey p.1.customInputs "t",
       (getKey p.1.responses "t").map TabResponse.customText,
       getKey p.1.customInputMode "t")) =
      some (some "hix", some (some "hi"), some true)
    ∧ ("hix" : String) ≠ "hi" := ⟨by rfl, by decide⟩

/-- Claim C4, amended: selecting the custom-entry slot with Enter only
turns CustomInput mode on — the persistent per-tab buffer
(`customInputs`) is not touched at all: no pre-seeding from
`customText`, no clearing. The previously committed text is shown on
re-entry only because the same buffer object persists, so edits
abandoned with Escape persist too. -/
theorem c4_amended_entering_custom_keeps_buffer
    (tabs : List TabConfig) (s : FormState) (tab : TabConfig)
    (htab : tabs.get? s.currentTabIndex = some tab)
    (hmode : (getKey s.customInputMode tab.id).getD false = false)
    (hcustom : tab.allowCustom = true)
    (hcur : (getKey s.optionCursor tab.id).getD 0 = (tab.options.length : Int))
    (hbuf : (getKey s.customInputs tab.id).isSome = true) :
    handleInput tabs s .enter =
      some (invalidateState
        { s with customInputMode := setKey s.customInputMode tab.id true },
        [.requestRender]) := by
  have hsub := index_ne_length htab
  obtain ⟨w, hw⟩ := Option.isSome_iff_exists.mp hbuf
  simp only [handleInput, htab, hmode, hsub, hcustom, hcur, hw]
  simp

theorem c4_amended_witness :
    [customTab].get? c4State.currentTabIndex = some customTab
    ∧ (getKey c4State.customInputMode customTab.id).getD false = false
    ∧ customTab.allowCustom = true
    ∧ (getKey c4State.optionCursor customTab.id).getD 0 =
        (customTab.options.length : Int)
    ∧ (getKey c4State.customInputs customTab.id).isSome = true
    ∧ handleInput [customTab] c4State .enter =
        some (invalidateState
          { c4State with
              customInputMode := setKey c4State.customInputMode customTab.id true },
          [.requestRender]) :=
  ⟨by decide, by decide, by decide, by decide, by decide,
   c4_amended_entering_custom_keeps_buffer [customTab] c4State customTab
     (by decide) (by decide) (by decide) (by decide) (by decide)⟩

/-- Claim C5: on every reachable state, no tab response has both a
defined `customText` and a non-empty selected set — committing custom
text writes `{selected: [], customText}`, and every selection path
assigns `customText = undefined`. -/
theorem c5_custom_text_and_selection_mutually_exclusive
    (tabs : List TabConfig) {s : FormState} (h : Reachable tabs s) :
    ∀ id r, getKey s.responses id = some r →
      r.customText = none ∨ r.selected = [] := by
  induction h with
  | init => exact responsesExclusive_init tabs
  | step hr hstep ih => exact responsesExclusive_step tabs ih hstep

theorem c5_witness :
    getKey (initState twoTabForm).responses "Color" =
      some { selected := [], customText := none }
    ∧ (({ selected := [], customText := none } : TabResponse).customText = none
       ∨ ({ selected := [], customText := none } : TabResponse).selected = []) :=
  ⟨by decide,
   c5_custom_text_and_selection_mutually_exclusive twoTabForm Reachable.init
     "Color" { selected := [], customText := none } (by decide)⟩

/-- Claim C6, counterexample: on a tab with zero options and
`allowCustom = false` the claimed bound `0 ≤ cursor < 0` is
unsatisfiable, and pressing Down actually stores
`Math.min(optionCount - 1, cursor + 1) = -1` in the cursor map. -/
theorem c6_counterexample_cursor_negative :
    (runForm [emptyTab] [.input .down]).map
      (fun p => getKey p.1.optionCursor "empty") = some (some (-1))
    ∧ ¬ (0 ≤ (-1 : Int)) := ⟨by rfl, by decide⟩

/-- Claim C6, amended: for a well-formed form — tab ids unique (as the
data model requires) and every tab with at least one slot
(`|options| + (allowCustom ? 1 : 0) ≥ 1`) — every stored cursor
satisfies `0 ≤ optionCursor[tab] < |options| + (allowCustom ? 1 : 0)`
on every reachable state. -/
theorem c6_amended_cursor_in_bounds
    (tabs : List TabConfig) {s : FormState}
    (hnd : (tabs.map TabConfig.id).Nodup)
    (hcnt : ∀ tab ∈ tabs, 1 ≤ optionCountOf tab)
    (h : Reachable tabs s) :
    ∀ tab ∈ tabs, ∀ c, getKey s.optionCursor tab.id = some c →
      0 ≤ c ∧ c < (optionCountOf tab : Int) := by
  induction h with
  | init =>
      intro tab hm c hc
      have hz := initState_cursor_zero tabs tab.id c hc
      subst hz
      have h1 := hcnt tab hm
      constructor
      · omega
      · omega
  | step hr hstep ih => exact cursorOk_step tabs hnd hcnt ih hstep

theorem c6_amended_witness :
    (twoTabForm.map TabConfig.id).Nodup
    ∧ (∀ tab ∈ twoTabForm, 1 ≤ optionCountOf tab)
    ∧ getKey (initState twoTabForm).optionCursor colorTab.id = some 0
    ∧ (0 ≤ (0 : Int) ∧ (0 : Int) < (optionCountOf colorTab : Int)) :=
  ⟨by decide, by decide, by decide,
   c6_amended_cursor_in_bounds twoTabForm (by decide) (by decide) Reachable.init
     colorTab (by decide) 0 (by decide)⟩

/-- Claim C7: in the Browsing state, a digit key (a character chunk
parsing to `d` with `1 ≤ d ≤ 9`) with `d ≤ optionCount` produces exactly
the state and events of pressing Enter with the cursor moved to slot
`d - 1` (single-replace, multiple-toggle, or entering CustomInput on the
custom slot), and a digit with `d > optionCount` leaves the state
unchanged and emits nothing. -/
theorem c7_digit_matches_enter_on_slot
    (tabs : List TabConfig) (s : FormState) (tab : TabConfig) (c : Char) (d : Nat)
    (htab : tabs.get? s.currentTabIndex = some tab)
    (hmode : (getKey s.customInputMode tab.id).getD false = false)
    (hc : charDigit? c = some d) (hd1 : 1 ≤ d) (hd9 : d ≤ 9) :
    (d ≤ optionCountOf tab →
      handleInput tabs s (.char c) =
        handleInput tabs
          { s with optionCursor := setKey s.optionCursor tab.id ((d - 1 : Nat) : Int) }
          .enter)
    ∧ (optionCountOf tab < d → handleInput tabs s (.char c) = some (s, [])) := by
  have hsub := index_ne_length htab
  constructor
  · intro hle
    have hrange : 1 ≤ d ∧ d ≤ optionCountOf tab := ⟨hd1, hle⟩
    have hcurget : getKey (setKey s.optionCursor tab.id ((d - 1 : Nat) : Int)) tab.id
        = some ((d - 1 : Nat) : Int) := getKey_setKey_self _ _ _
    by_cases hcoP : tab.allowCustom = true ∧ d - 1 = tab.options.length
    · have hco : (tab.allowCustom && ((d - 1) == tab.options.length)) = true := by
        simp [hcoP.1, hcoP.2]
      have hcoInt : (tab.allowCustom &&
          (((d - 1 : Nat) : Int) == (tab.options.length : Int))) = true := by
        simp [hcoP.1, hcoP.2]
      cases hw : getKey s.customInputs tab.id with
      | none =>
          simp only [handleInput, htab, hmode, hsub, hc, hrange, if_pos hrange,
            hcurget, hco, hcoInt, hw]
          simp [hcoP]
      | some w =>
          simp only [handleInput, htab, hmode, hsub, hc, hrange, if_pos hrange,
            hcurget, hco, hcoInt, hw]
          simp [hcoP]
    · have hco : (tab.allowCustom && ((d - 1) == tab.options.length)) = false := by
        rcases Decidable.not_and_iff_or_not.mp hcoP with h | h
        · simp [Bool.eq_false_iff.mpr h]
        · simp [h]
      have hcoInt : (tab.allowCustom &&
          (((d - 1 : Nat) : Int) == (tab.options.length : Int))) = false := by
        rcases Decidable.not_and_iff_or_not.mp hcoP with h | h
        · simp [Bool.eq_false_iff.mpr h]
        · simp [h]
      have hgetAt : getAtInt tab.options ((d - 1 : Nat) : Int) =
          tab.options.get? (d - 1) := by
        simp [getAtInt]
      cases hopt : tab.options.get? (d - 1) with
      | none =>
          exfalso
          have hlen : tab.options.length ≤ d - 1 := List.get?_eq_none.mp hopt
          by_cases hac : tab.allowCustom = true
          · have hcnt : optionCountOf tab = tab.options.length + 1 := by
              simp [optionCountOf, hac]
            rw [hcnt] at hle
            exact hcoP ⟨hac, by omega⟩
          · have hcnt : optionCountOf tab = tab.options.length := by
              simp [optionCountOf, hac]
            rw [hcnt] at hle
            omega
      | some opt =>
          have hopt2 : tab.options[d - 1]? = some opt := by
            rw [← List.get?_eq_getElem?]
            exact hopt
          cases hresp : getKey s.responses tab.id with
          | none =>
              simp only [handleInput, htab, hmode, hsub, hc, hrange, if_pos hrange,
                hcurget, hco, hcoInt, hgetAt, hopt, hresp]
              simp [hcoP, hgetAt, hopt2, hresp]
          | some response =>
              simp only [handleInput, htab, hmode, hsub, hc, hrange, if_pos hrange,
                hcurget, hco, hcoInt, hgetAt, hopt, hresp]
              simp [hcoP, hgetAt, hopt2, hresp]
  · intro hgt
    have hnle : ¬ (1 ≤ d ∧ d ≤ optionCountOf tab) := by
      rintro ⟨-, h2⟩
      exact absurd h2 (Nat.not_le_of_lt hgt)
    simp only [handleInput, htab, hmode, hsub, hc]
    simp [hnle]

theorem c7_witness :
    twoTabForm.get? (initState twoTabForm).currentTabIndex = some colorTab
    ∧ (getKey (initState twoTabForm).customInputMode colorTab.id).getD false = false
    ∧ charDigit? ('1') = some 1 ∧ 1 ≤ 1 ∧ 1 ≤ 9
    ∧ (1 ≤ optionCountOf colorTab →
        handleInput twoTabForm (initState twoTabForm) (.char '1') =
          handleInput twoTabForm
            { initState twoTabForm with
                optionCursor := (setKey (initState twoTabForm).optionCursor
                  colorTab.id ((1 - 1 : Nat) : Int)) }
            .enter)
    ∧ (optionCountOf colorTab < 1 →
        handleInput twoTabForm (initState twoTabForm) (.char '1') =
          some (initState twoTabForm, [])) := by
  refine ⟨by decide, by decide, by decide, by decide, by decide, ?_, ?_⟩
  · exact (c7_digit_matches_enter_on_slot twoTabForm (initState twoTabForm)
      colorTab ('1') 1 (by decide) (by decide) (by decide) (by decide) (by decide)).1
  · exact (c7_digit_matches_enter_on_slot twoTabForm (initState twoTabForm)
      colorTab ('1') 1 (by decide) (by decide) (by decide) (by decide) (by decide)).2

/-- Claim C8: `render(width)` is idempotent and pure up to its cache:
with no intervening `handleInput` or `invalidate`, a second call with
the same width returns the identical lines and the identical state, and
the first call changes no state component other than `cachedWidth` and
`cachedLines`. -/
theorem c8_render_idempotent_and_pure (env : RenderEnv) (tabs : List TabConfig)
    (s : FormState) (width : Nat) :
    (render env tabs s width).1 = (render env tabs (render env tabs s width).2 width).1
    ∧ (render env tabs (render env tabs s width).2 width).2 =
        (render env tabs s width).2
    ∧ (render env tabs s width).2.currentTabIndex = s.currentTabIndex
    ∧ (render env tabs s width).2.responses = s.responses
    ∧ (render env tabs s width).2.optionCursor = s.optionCursor
    ∧ (render env tabs s width).2.customInputMode = s.customInputMode
    ∧ (render env tabs s width).2.customInputs = s.customInputs := by
  unfold render
  rcases hcl : s.cachedLines with _ | lines
  · simp
  · by_cases hcw : s.cachedWidth = some width
    · simp [hcl, hcw]
    · simp [hcl, hcw]

/-- Claim C9: on every reachable state, `handleInput` never reaches an
unguarded dereference of a missing record entry (the modelled
`TypeError`): every step returns normally, because the constructor
initialises `responses` and `customInputs` for every tab id and every
step preserves that. -/
theorem c9_handleInput_never_throws
    (tabs : List TabConfig) {s : FormState} (h : Reachable tabs s)
    (d : InputData) : (handleInput tabs s d).isSome = true :=
  handleInput_isSome tabs s d (reachable_mapsInitialized tabs h)

theorem c9_witness :
    (handleInput twoTabForm (initState twoTabForm) .escape).isSome = true :=
  c9_handleInput_never_throws twoTabForm Reachable.init .escape

/-- Claim C10: pressing Enter in CustomInput mode when the trimmed
buffer is empty only exits the mode (and drops the render cache): the
`responses` map — previously committed `customText` and previously
selected options included — is left completely unchanged, because the
assignment at lines 112-115 is guarded by `if (inputText)`. -/
theorem c10_empty_custom_commit_is_pure_mode_exit
    (tabs : List TabConfig) (s : FormState) (tab : TabConfig) (buf : String)
    (htab : tabs.get? s.currentTabIndex = some tab)
    (hmode : (getKey s.customInputMode tab.id).getD false = true)
    (hbuf : getKey s.customInputs tab.id = some buf)
    (htrim : jsTrim buf = "") :
    handleInput tabs s .enter =
      some (invalidateState
        { s with customInputMode := setKey s.customInputMode tab.id false },
        [.requestRender]) := by
  have hsub := index_ne_length htab
  simp only [handleInput, htab, hmode, hsub, hbuf, htrim]
  simp

theorem c10_witness :
    [customTab].get? c10State.currentTabIndex = some customTab
    ∧ (getKey c10State.customInputMode customTab.id).getD false = true
    ∧ getKey c10State.customInputs customTab.id = some "  "
    ∧ jsTrim "  " = ""
    ∧ handleInput [customTab] c10State .enter =
        some (invalidateState
          { c10State with
              customInputMode := setKey c10State.customInputMode customTab.id false },
          [.requestRender]) :=
  ⟨by decide, by decide, by decide, by decide,
   c10_empty_custom_commit_is_pure_mode_exit [customTab] c10State customTab "  "
     (by decide) (by decide) (by decide) (by decide)⟩
